import Mathlib

/-!
Shallow embedding of the Kemzies/Mary image-stylizer application: the
generation client (src/services/geminiService.ts) and the application shell
(the React component in src/unnamed/part_000).  Browser and network effects
appear as explicit outcome parameters; React state updates are modelled as
explicit state snapshots.
-/

namespace Mary

/-! ### Generation-service response model (src/services/geminiService.ts) -/

/-- An inline-data fragment of a request/response part: a raw payload plus a
MIME type, mirroring the SDK `inlineData` object. -/
structure InlineData where
  data : String
  mimeType : String
deriving DecidableEq

/-- One part of a candidate content: it may carry inline data and/or text;
absent fields are `none` (undefined in the SDK). -/
structure GenPart where
  inlineData : Option InlineData
  text : Option String
deriving DecidableEq

/-- The content of a response candidate: an optional list of parts. -/
structure GenContent where
  parts : Option (List GenPart)
deriving DecidableEq

/-- One candidate of a generation response. -/
structure Candidate where
  content : Option GenContent
deriving DecidableEq

/-- A generation-service response: the optional candidate list, plus the
value of the SDK accessor `response.text` (the textual content of the
response when any, `none`/empty otherwise). -/
structure GenResponse where
  candidates : Option (List Candidate)
  text : Option String
deriving DecidableEq

/-- The loop `for (const part of ...parts)`: return the payload of the first
part whose `inlineData` is present with a truthy (non-empty) `data` field. -/
def firstInlineData : List GenPart → Option String
  | [] => none
  | p :: rest =>
    match p.inlineData with
    | some d => if d.data = "" then firstInlineData rest else some d.data
    | none => firstInlineData rest

/-- The guarded scan in `editImageWithReference`:
`response.candidates && response.candidates.length > 0 &&
response.candidates[0].content && response.candidates[0].content.parts`
followed by the part loop.  Only the first candidate is examined. -/
def findInlineData (resp : GenResponse) : Option String :=
  match resp.candidates with
  | some (c :: _) =>
    match c.content with
    | some content =>
      match content.parts with
      | some parts => firstInlineData parts
      | none => none
    | none => none
  | _ => none

/-- The body of the `try` block applied to a received response: the
inline-data scan, else the text fallback throw, else the empty-response
throw.  `if (textResponse)` is the JavaScript truthiness test, so an empty
string falls to the empty-response message; `textResponse.substring(0, 100)`
is `String.take` at 100. -/
def responseToImage (resp : GenResponse) : Except String String :=
  match findInlineData resp with
  | some data => .ok data
  | none =>
    match resp.text with
    | some t =>
      if t = "" then
        .error "No image was generated in the API response. The response may have been blocked or empty."
      else
        .error ("API returned text instead of an image: \"" ++ t.take 100 ++ "...\"")
    | none =>
      .error "No image was generated in the API response. The response may have been blocked or empty."

/-- Outcome of the underlying awaited `ai.models.generateContent` call:
a delivered response, a thrown `Error` carrying a message, or a thrown
non-`Error` value. -/
inductive CallOutcome
  | ok (resp : GenResponse)
  | errObj (msg : String)
  | unknownThrow
deriving DecidableEq

/-- `editImageWithReference` (src/services/geminiService.ts): on a delivered
response, run the `try`-block scan; every `Error` escaping the `try` block —
including the function's own "API returned text..." and "No image was
generated..." throws, which are raised inside the `try` — is caught and
rewrapped with the "Gemini API Error: " prefix, while a non-`Error` throw
becomes the generic unknown-error message. -/
def editImageWithReference (outcome : CallOutcome) : Except String String :=
  match outcome with
  | .ok resp =>
    match responseToImage resp with
    | .ok data => .ok data
    | .error msg => .error ("Gemini API Error: " ++ msg)
  | .errObj msg => .error ("Gemini API Error: " ++ msg)
  | .unknownThrow => .error "An unknown error occurred while communicating with the Gemini API."

/-! ### Application shell (src/unnamed/part_000) -/

/-- A browser `File` handle: the shell inspects only its size; the name is
kept for identity. -/
structure FileHandle where
  size : Nat
  name : String
deriving DecidableEq

/-- The stored reference image: the original file plus the data-URL preview
string produced by `FileReader.readAsDataURL`. -/
structure ReferenceImage where
  file : FileHandle
  previewUrl : String
deriving DecidableEq

/-- The component state: the five `useState` hooks of `App`, plus the value
of the file-input DOM element reached through `fileInputRef`. -/
structure AppState where
  prompt : String
  referenceImage : Option ReferenceImage
  generatedImage : Option String
  isLoading : Bool
  error : Option String
  fileInputValue : String
deriving DecidableEq

/-- The default prompt text (`INITIAL_PROMPT` in src/unnamed/part_000). -/
def INITIAL_PROMPT : String :=
  "A beautiful young woman with long dark hair, featuring the exact facial features and structure from the reference image. She is wearing a loose-fitting, oversized orange linen button-down shirt with the top buttons open, and matching wide-leg pink linen trousers. She is seated gracefully on a dark wooden backless stool, facing slightly towards the camera. Her left leg is bent at the knee with her foot flat on the floor, and her right leg is crossed over her left. Her left arm is casually draped over her right knee, with her fingers gently intertwined, and her right arm is resting by her side, with her hand on her lap. She has a subtle, engaging gaze directly at the viewer. The background is a plain, textured, dark olive green or earthy brown wall, creating a simple, studio-like setting. The lighting is soft and diffused from the front-side, highlighting her features and the texture of her clothing, creating gentle shadows and even illumination. The photo is a realistic, high-resolution three-quarter body shot, with a slightly off-center composition and a soft background blur as if taken with a 85mm prime lens at f/2.8."

/-- The initial component state: default prompt, nothing selected, nothing
generated, not loading, no error. -/
def initialState : AppState :=
  { prompt := INITIAL_PROMPT
    referenceImage := none
    generatedImage := none
    isLoading := false
    error := none
    fileInputValue := "" }

/-- Outcome of the asynchronous `FileReader` read started by
`readAsDataURL`: on success the `onloadend` callback runs with
`reader.result` holding a data URL; on failure the `onerror` callback runs.
The embedding models the effect of the callback registered for each case. -/
inductive ReadOutcome
  | success (dataUrl : String)
  | failure
deriving DecidableEq

/-- `handleImageChange`: no-op when no file was selected; a file over
4 * 1024 * 1024 bytes sets the size error and returns with no other change;
otherwise the read runs: on success the reference image is stored and the
error cleared, on failure the read-failure error is set. -/
def handleImageChange (s : AppState) (file : Option FileHandle)
    (read : ReadOutcome) : AppState :=
  match file with
  | none => s
  | some f =>
    if f.size > 4 * 1024 * 1024 then
      { s with error := some "File is too large. Please upload an image under 4MB." }
    else
      match read with
      | .success dataUrl =>
        { s with referenceImage := some { file := f, previewUrl := dataUrl }
                 error := none }
      | .failure =>
        { s with error := some "Failed to read the image file." }

/-- `clearReferenceImage`: drop the reference image and reset the
file-input element value to the empty string. -/
def clearReferenceImage (s : AppState) : AppState :=
  { s with referenceImage := none, fileInputValue := "" }

/-- The prompt textarea `onChange` handler: replace the prompt text. -/
def handlePromptChange (s : AppState) (p : String) : AppState :=
  { s with prompt := p }

/-- Helper for the regex `:(.*?);`: the characters strictly before the first
`;` of the list, or `none` when the list has no `;`. -/
def takeUntilSemicolon : List Char → Option (List Char)
  | [] => none
  | c :: rest =>
    if c = ';' then some []
    else (takeUntilSemicolon rest).map (fun l => c :: l)

/-- Helper for the regex `:(.*?);`: skip to the first `:`, then capture up to
the following `;`.  A later `:` cannot start a match when the first one
fails, because any `;` after a later `:` also lies after the first `:`. -/
def captureAfterColon : List Char → Option (List Char)
  | [] => none
  | c :: rest =>
    if c = ':' then takeUntilSemicolon rest
    else captureAfterColon rest

/-- The capture group of `parts[0].match(/:(.*?);/)`: the text between the
first `:` and the first `;` after it, when both exist. -/
def mimeTypeMatch (s : String) : Option String :=
  (captureAfterColon s.toList).map (fun l => String.mk l)

/-- The JavaScript `split(',')`: cut at every comma, keeping empty pieces,
so a string with k commas yields k + 1 pieces. -/
def splitCommaChars : List Char → List (List Char)
  | [] => [[]]
  | c :: rest =>
    if c = ',' then [] :: splitCommaChars rest
    else
      match splitCommaChars rest with
      | [] => [[c]]
      | l :: ls => (c :: l) :: ls

/-- `previewUrl.split(',')` as a string operation. -/
def splitComma (s : String) : List String :=
  (splitCommaChars s.toList).map (fun l => String.mk l)

/-- The data-URL parsing steps of `handleGenerateClick`:
`previewUrl.split(',')` must yield exactly two parts (the guard
`parts.length !== 2`), then the MIME type is the regex capture on
`parts[0]`, which must be present and truthy (non-empty); the payload is
`parts[1]`. -/
def parseDataUrl (url : String) : Except String (String × String) :=
  match splitComma url with
  | [header, payload] =>
    match mimeTypeMatch header with
    | some m =>
      if m = "" then .error "Could not determine image MIME type."
      else .ok (m, payload)
    | none => .error "Could not determine image MIME type."
  | _ => .error "Invalid image data URL format."

/-- One run of `handleGenerateClick`: the list of state snapshots after each
state-setter call, in order, paired with the arguments
`(prompt, base64Data, mimeType)` passed to `editImageWithReference`
(`none` when the client is never invoked).  The `outcome` parameter is the
behaviour of the awaited client call, consulted only when the call is made.
Parse failures and the client error message land in `setError` through the
`catch` clause (every thrown value here is an `Error`, so `err.message` is
stored), and the `finally` clause clears the loading flag last. -/
def handleGenerateClick (s : AppState) (outcome : CallOutcome) :
    List AppState × Option (String × String × String) :=
  match s.referenceImage with
  | none => ([{ s with error := some "Please upload a reference image first." }], none)
  | some ref =>
    let s1 := { s with isLoading := true }
    let s2 := { s1 with error := none }
    let s3 := { s2 with generatedImage := none }
    match parseDataUrl ref.previewUrl with
    | .error msg =>
      let s4 := { s3 with error := some msg }
      ([s1, s2, s3, s4, { s4 with isLoading := false }], none)
    | .ok (mimeType, base64Data) =>
      match editImageWithReference outcome with
      | .ok resultBase64 =>
        let s4 := { s3 with generatedImage := some ("data:image/jpeg;base64," ++ resultBase64) }
        ([s1, s2, s3, s4, { s4 with isLoading := false }],
          some (s.prompt, base64Data, mimeType))
      | .error msg =>
        let s4 := { s3 with error := some msg }
        ([s1, s2, s3, s4, { s4 with isLoading := false }],
          some (s.prompt, base64Data, mimeType))

/-- The last snapshot of a run, or the starting state when the run recorded
no snapshot. -/
def finalSnapshot : List AppState → AppState → AppState
  | [], s => s
  | [x], _ => x
  | _ :: x :: xs, s => finalSnapshot (x :: xs) s

/-- The component state after `handleGenerateClick` returns. -/
def generateFinalState (s : AppState) (outcome : CallOutcome) : AppState :=
  finalSnapshot (handleGenerateClick s outcome).1 s

/-- The arguments passed to the generation client during
`handleGenerateClick`, `none` when no call is made. -/
def generateClientArgs (s : AppState) (outcome : CallOutcome) :
    Option (String × String × String) :=
  (handleGenerateClick s outcome).2

/-- A user or environment event handled by the shell. -/
inductive Op
  | selectImage (file : Option FileHandle) (read : ReadOutcome)
  | clearImage
  | editPrompt (p : String)
  | generate (outcome : CallOutcome)
deriving DecidableEq

/-- The state transition performed by one event. -/
def step (s : AppState) : Op → AppState
  | .selectImage file read => handleImageChange s file read
  | .clearImage => clearReferenceImage s
  | .editPrompt p => handlePromptChange s p
  | .generate outcome => generateFinalState s outcome

/-- Run a sequence of events from a state. -/
def run (s : AppState) (ops : List Op) : AppState :=
  ops.foldl step s

/-! ### Claim-side predicates and concrete fixtures -/

/-- Whether a candidate content holds a part with inline data whose payload
is non-empty. -/
def candidateHasInline (c : Candidate) : Bool :=
  match c.content with
  | some content =>
    (content.parts.getD []).any (fun p =>
      match p.inlineData with
      | some d => d.data != ""
      | none => false)
  | none => false

/-- Modelled from the spec wording of claim C2: the response contains at
least one candidate whose content parts include an inline-data part with a
non-empty payload. -/
def specSomeCandidateHasInline (resp : GenResponse) : Bool :=
  (resp.candidates.getD []).any candidateHasInline

/-- Whether a candidate content holds no inline-data part at all. -/
def candidateNoInline (c : Candidate) : Bool :=
  match c.content with
  | some content => (content.parts.getD []).all (fun p => p.inlineData.isNone)
  | none => true

/-- The hypothesis of claim C7: no part of any candidate carries inline
data. -/
def respHasNoInlinePart (resp : GenResponse) : Bool :=
  (resp.candidates.getD []).all candidateNoInline

/-- Modelled from the spec wording of claim C3: splitting a URL "on the
first comma", which yields two parts exactly when the URL contains a comma.
Used only to contrast the spec wording with the split-on-every-comma of the
code. -/
def specSplitOnFirstComma (url : String) : List String :=
  if url.toList.contains ',' then
    [String.mk (url.toList.takeWhile (fun c => c != ',')),
      String.mk ((url.toList.dropWhile (fun c => c != ',')).tail)]
  else [url]

/-- A concrete reference image with a well-formed preview data URL. -/
def witnessRef : ReferenceImage :=
  { file := { size := 3, name := "ref.png" }
    previewUrl := "data:image/png;base64,AAAA" }

/-- A concrete state holding `witnessRef`. -/
def witnessState : AppState :=
  { prompt := "make it blue"
    referenceImage := some witnessRef
    generatedImage := none
    isLoading := false
    error := none
    fileInputValue := "" }

/-- A response whose sole candidate carries one inline-data part with
payload "QUFB". -/
def okResp : GenResponse :=
  { candidates := some
      [{ content := some
          { parts := some
              [{ inlineData := some { data := "QUFB", mimeType := "image/png" }
                 text := none }] } }]
    text := none }

/-- A response with no inline data anywhere and textual content. -/
def textResp : GenResponse :=
  { candidates := some
      [{ content := some
          { parts := some
              [{ inlineData := none, text := some "I cannot generate that image" }] } }]
    text := some "I cannot generate that image" }

/-- A response whose only inline-data part sits in the second candidate:
the first candidate carries only text, so the SDK `response.text` accessor
(which reads the first candidate) yields that text. -/
def secondCandidateResp : GenResponse :=
  { candidates := some
      [ { content := some
            { parts := some [{ inlineData := none, text := some "here it is" }] } },
        { content := some
            { parts := some
                [{ inlineData := some { data := "QUFB", mimeType := "image/png" }
                   text := none }] } } ]
    text := some "here it is" }

/-- A response whose first candidate parts hold, in order: a text-only part,
an inline part with empty payload, an inline part with payload "QUFB", and a
later inline part with payload "WldG". -/
def orderedPartsResp : GenResponse :=
  { candidates := some
      [{ content := some
          { parts := some
              [ { inlineData := none, text := some "thinking" },
                { inlineData := some { data := "", mimeType := "image/png" }
                  text := none },
                { inlineData := some { data := "QUFB", mimeType := "image/png" }
                  text := none },
                { inlineData := some { data := "WldG", mimeType := "image/png" }
                  text := none } ] } }]
    text := none }

/-- A concrete state whose preview URL contains two commas. -/
def twoCommaState : AppState :=
  { prompt := "p"
    referenceImage := some
      { file := { size := 10, name := "a.png" }
        previewUrl := "data:image/png;base64,AA,BB" }
    generatedImage := none
    isLoading := false
    error := none
    fileInputValue := "" }

/-- The event sequence of the C1 counterexample: select a small file, run a
successful generation, clear the image, then select an oversized file. -/
def c1ops : List Op :=
  [ Op.selectImage (some { size := 10, name := "face.png" })
      (ReadOutcome.success "data:image/png;base64,AAAA"),
    Op.generate (CallOutcome.ok okResp),
    Op.clearImage,
    Op.selectImage (some { size := 5000000, name := "big.png" })
      (ReadOutcome.success "data:image/png;base64,BBBB") ]

/-- An error produced by the image-selection handler or by the
missing-reference-image guard. -/
def selectionOrGuardError (s : AppState) : Prop :=
  s.error = some "File is too large. Please upload an image under 4MB." ∨
  s.error = some "Failed to read the image file." ∨
  s.error = some "Please upload a reference image first."

/-- States in which error and generated result coexist carry only a
selection-path or missing-image error. -/
def coexistInv (s : AppState) : Prop :=
  s.error = none ∨ s.generatedImage = none ∨ selectionOrGuardError s

/-! ### Theorems -/

/-- C4: for every base64 payload returned successfully by the generation
client, the stored generated result is exactly "data:image/jpeg;base64,"
followed by that payload, for every reference image and hence never built
from the reference image MIME type. -/
theorem c4_result_is_jpeg (s : AppState) (ref : ReferenceImage) (m d : String)
    (o : CallOutcome) (payload : String)
    (href : s.referenceImage = some ref)
    (hparse : parseDataUrl ref.previewUrl = .ok (m, d))
    (hok : editImageWithReference o = .ok payload) :
    (generateFinalState s o).generatedImage =
      some ("data:image/jpeg;base64," ++ payload) := by
  simp [generateFinalState, handleGenerateClick, href, hparse, hok, finalSnapshot]

/-- Witness for C4 at a concrete state and response. -/
theorem c4_witness :
    (generateFinalState witnessState (CallOutcome.ok okResp)).generatedImage =
      some ("data:image/jpeg;base64," ++ "QUFB") :=
  c4_result_is_jpeg witnessState witnessRef "image/png" "AAAA"
    (CallOutcome.ok okResp) "QUFB" rfl rfl rfl

/-- C5: generate with no reference image present sets the upload-first
error, makes no call to the generation client, and leaves the prompt, the
reference image, and the generated result unchanged, for every prompt. -/
theorem c5_missing_reference (s : AppState) (o : CallOutcome)
    (h : s.referenceImage = none) :
    generateClientArgs s o = none ∧
    (generateFinalState s o).error = some "Please upload a reference image first." ∧
    (generateFinalState s o).prompt = s.prompt ∧
    (generateFinalState s o).referenceImage = s.referenceImage ∧
    (generateFinalState s o).generatedImage = s.generatedImage := by
  simp [generateClientArgs, generateFinalState, handleGenerateClick, h, finalSnapshot]

/-- Witness for C5 at the initial state. -/
theorem c5_witness :
    generateClientArgs initialState CallOutcome.unknownThrow = none ∧
    (generateFinalState initialState CallOutcome.unknownThrow).error =
      some "Please upload a reference image first." ∧
    (generateFinalState initialState CallOutcome.unknownThrow).prompt =
      initialState.prompt ∧
    (generateFinalState initialState CallOutcome.unknownThrow).referenceImage =
      initialState.referenceImage ∧
    (generateFinalState initialState CallOutcome.unknownThrow).generatedImage =
      initialState.generatedImage :=
  c5_missing_reference initialState CallOutcome.unknownThrow rfl

/-- C6: when the stored data URL is exactly "data:image/png;base64,AAAA",
generate extracts MIME type "image/png" and payload "AAAA" and passes them,
with the current prompt, to the generation client. -/
theorem c6_mime_extraction (s : AppState) (ref : ReferenceImage)
    (o : CallOutcome)
    (href : s.referenceImage = some ref)
    (hurl : ref.previewUrl = "data:image/png;base64,AAAA") :
    generateClientArgs s o = some (s.prompt, "AAAA", "image/png") := by
  have hparse : parseDataUrl ref.previewUrl =
      .ok ("image/png", "AAAA") := by rw [hurl]; exact rfl
  cases ho : editImageWithReference o with
  | ok r => simp [generateClientArgs, handleGenerateClick, href, hparse, ho]
  | error msg => simp [generateClientArgs, handleGenerateClick, href, hparse, ho]

/-- Witness for C6 at a concrete state. -/
theorem c6_witness :
    generateClientArgs witnessState CallOutcome.unknownThrow =
      some (witnessState.prompt, "AAAA", "image/png") :=
  c6_mime_extraction witnessState witnessRef CallOutcome.unknownThrow rfl rfl

/-- C9: a file over 4 MiB is rejected: the size error is set and the stored
reference image is unchanged. -/
theorem c9_oversized_file (s : AppState) (f : FileHandle) (r : ReadOutcome)
    (h : f.size > 4 * 1024 * 1024) :
    (handleImageChange s (some f) r).referenceImage = s.referenceImage ∧
    (handleImageChange s (some f) r).error =
      some "File is too large. Please upload an image under 4MB." := by
  simp [handleImageChange, h]

/-- Witness for C9 with a 4 MiB + 1 byte file. -/
theorem c9_witness :
    (handleImageChange witnessState (some { size := 4194305, name := "big.png" })
        ReadOutcome.failure).referenceImage = witnessState.referenceImage ∧
    (handleImageChange witnessState (some { size := 4194305, name := "big.png" })
        ReadOutcome.failure).error =
      some "File is too large. Please upload an image under 4MB." :=
  c9_oversized_file witnessState { size := 4194305, name := "big.png" }
    ReadOutcome.failure (by decide)

/-- C10: clearing the reference image changes only the reference image
(set to absent) and the file-input value; prompt, error, generated result
and loading flag are untouched. -/
theorem c10_clear_frame (s : AppState) :
    (clearReferenceImage s).prompt = s.prompt ∧
    (clearReferenceImage s).error = s.error ∧
    (clearReferenceImage s).generatedImage = s.generatedImage ∧
    (clearReferenceImage s).isLoading = s.isLoading ∧
    (clearReferenceImage s).referenceImage = none ∧
    (clearReferenceImage s).fileInputValue = "" := by
  simp [clearReferenceImage]

/-- C8: when a reference image is present, every state snapshot of a
generate run except the last has the loading flag set, and the state after
the run has it cleared, on the success path and on every failure path. -/
theorem c8_loading_flag (s : AppState) (ref : ReferenceImage) (o : CallOutcome)
    (href : s.referenceImage = some ref) :
    ((handleGenerateClick s o).1.dropLast.all (fun st => st.isLoading)) = true ∧
    (generateFinalState s o).isLoading = false := by
  cases hpd : parseDataUrl ref.previewUrl with
  | error msg =>
    simp [handleGenerateClick, generateFinalState, href, hpd, finalSnapshot,
      List.dropLast]
  | ok pr =>
    obtain ⟨m, d⟩ := pr
    cases ho : editImageWithReference o with
    | ok r =>
      simp [handleGenerateClick, generateFinalState, href, hpd, ho,
        finalSnapshot, List.dropLast]
    | error msg =>
      simp [handleGenerateClick, generateFinalState, href, hpd, ho,
        finalSnapshot, List.dropLast]

/-- Witness for C8 at a concrete state on a client-failure outcome. -/
theorem c8_witness :
    ((handleGenerateClick witnessState CallOutcome.unknownThrow).1.dropLast.all
      (fun st => st.isLoading)) = true ∧
    (generateFinalState witnessState CallOutcome.unknownThrow).isLoading = false :=
  c8_loading_flag witnessState witnessRef CallOutcome.unknownThrow rfl

/-- A list of parts none of which carries inline data scans to nothing. -/
theorem firstInlineData_eq_none (parts : List GenPart)
    (h : ∀ q ∈ parts, q.inlineData = none) :
    firstInlineData parts = none := by
  induction parts with
  | nil => rfl
  | cons p rest ih =>
    have hp := h p (by simp)
    simp only [firstInlineData, hp]
    exact ih (fun q hq => h q (by simp [hq]))

/-- A response with no inline-data part anywhere scans to nothing. -/
theorem findInlineData_of_noInline (resp : GenResponse)
    (h : respHasNoInlinePart resp = true) :
    findInlineData resp = none := by
  unfold findInlineData
  cases hc : resp.candidates with
  | none => rfl
  | some cs =>
    cases cs with
    | nil => rfl
    | cons c rest =>
      cases hcon : c.content with
      | none => simp [hcon]
      | some content =>
        cases hp : content.parts with
        | none => simp [hcon, hp]
        | some parts =>
          simp only [hcon, hp]
          apply firstInlineData_eq_none
          intro q hq
          simp only [respHasNoInlinePart, hc, Option.getD_some, List.all_cons,
            Bool.and_eq_true] at h
          have h1 := h.1
          simp only [candidateNoInline, hcon, hp, Option.getD_some,
            List.all_eq_true] at h1
          exact Option.isNone_iff_eq_none.mp (h1 q hq)

/-- C7: for every response with no inline-data part but non-empty textual
content, the client fails with a message that carries the first 100
characters of that text, and generate surfaces that exact message as the
error. -/
theorem c7_text_fallback (resp : GenResponse) (t : String) (s : AppState)
    (ref : ReferenceImage) (m d : String)
    (hnoinline : respHasNoInlinePart resp = true)
    (htext : resp.text = some t) (ht : t ≠ "")
    (href : s.referenceImage = some ref)
    (hparse : parseDataUrl ref.previewUrl = .ok (m, d)) :
    editImageWithReference (.ok resp) =
      .error ("Gemini API Error: " ++
        ("API returned text instead of an image: \"" ++ t.take 100 ++ "...\"")) ∧
    (generateFinalState s (.ok resp)).error =
      some ("Gemini API Error: " ++
        ("API returned text instead of an image: \"" ++ t.take 100 ++ "...\"")) := by
  have hfind := findInlineData_of_noInline resp hnoinline
  have hedit : editImageWithReference (.ok resp) =
      .error ("Gemini API Error: " ++
        ("API returned text instead of an image: \"" ++ t.take 100 ++ "...\"")) := by
    simp [editImageWithReference, responseToImage, hfind, htext, ht]
  exact ⟨hedit, by
    simp [generateFinalState, handleGenerateClick, href, hparse, hedit,
      finalSnapshot]⟩

/-- Witness for C7 at a concrete text-only response. -/
theorem c7_witness :
    editImageWithReference (.ok textResp) =
      .error ("Gemini API Error: " ++
        ("API returned text instead of an image: \"" ++
          ("I cannot generate that image").take 100 ++ "...\"")) ∧
    (generateFinalState witnessState (.ok textResp)).error =
      some ("Gemini API Error: " ++
        ("API returned text instead of an image: \"" ++
          ("I cannot generate that image").take 100 ++ "...\"")) :=
  c7_text_fallback textResp "I cannot generate that image" witnessState
    witnessRef "image/png" "AAAA" rfl rfl (by decide) rfl rfl

/-- The part scan returns the payload of the first inline part with a
non-empty payload, skipping text-only parts and empty inline payloads. -/
theorem firstInlineData_first_match (pre : List GenPart) (p : GenPart)
    (post : List GenPart) (d : InlineData)
    (hpre : pre.all (fun q => q.inlineData.all (fun i => i.data == "")) = true)
    (hp : p.inlineData = some d) (hd : d.data ≠ "") :
    firstInlineData (pre ++ p :: post) = some d.data := by
  induction pre with
  | nil => simp [firstInlineData, hp, hd]
  | cons q rest ih =>
    simp only [List.all_cons, Bool.and_eq_true] at hpre
    cases hq : q.inlineData with
    | none =>
      simp only [List.cons_append, firstInlineData, hq]
      exact ih hpre.2
    | some i =>
      have hi : i.data = "" := by
        have := hpre.1
        simpa [hq] using this
      simp only [List.cons_append, firstInlineData, hq, hi, if_pos]
      exact ih hpre.2

/-- C2 (amended): when the FIRST candidate content parts include an
inline-data part with a non-empty payload, the client succeeds and returns
the payload of the first such part, scanning that candidate parts in
order. -/
theorem c2_first_candidate_scan (resp : GenResponse) (c : Candidate)
    (cs : List Candidate) (content : GenContent) (pre post : List GenPart)
    (p : GenPart) (d : InlineData)
    (hc : resp.candidates = some (c :: cs))
    (hcontent : c.content = some content)
    (hparts : content.parts = some (pre ++ p :: post))
    (hpre : pre.all (fun q => q.inlineData.all (fun i => i.data == "")) = true)
    (hp : p.inlineData = some d) (hd : d.data ≠ "") :
    editImageWithReference (.ok resp) = .ok d.data := by
  have hfind : findInlineData resp = some d.data := by
    simp [findInlineData, hc, hcontent, hparts,
      firstInlineData_first_match pre p post d hpre hp hd]
  simp [editImageWithReference, responseToImage, hfind]

/-- Witness for C2 (amended): the scan skips a text-only part and an
empty inline payload and returns "QUFB", not the later "WldG". -/
theorem c2_witness :
    editImageWithReference (.ok orderedPartsResp) = .ok "QUFB" :=
  c2_first_candidate_scan orderedPartsResp
    { content := some
        { parts := some
            [ { inlineData := none, text := some "thinking" },
              { inlineData := some { data := "", mimeType := "image/png" }
                text := none },
              { inlineData := some { data := "QUFB", mimeType := "image/png" }
                text := none },
              { inlineData := some { data := "WldG", mimeType := "image/png" }
                text := none } ] } } []
    { parts := some
        [ { inlineData := none, text := some "thinking" },
          { inlineData := some { data := "", mimeType := "image/png" }
            text := none },
          { inlineData := some { data := "QUFB", mimeType := "image/png" }
            text := none },
          { inlineData := some { data := "WldG", mimeType := "image/png" }
            text := none } ] }
    [ { inlineData := none, text := some "thinking" },
      { inlineData := some { data := "", mimeType := "image/png" }
        text := none } ]
    [ { inlineData := some { data := "WldG", mimeType := "image/png" }
        text := none } ]
    { inlineData := some { data := "QUFB", mimeType := "image/png" }
      text := none }
    { data := "QUFB", mimeType := "image/png" }
    rfl rfl rfl (by decide) rfl (by decide)

/-- C2 (counterexample): a response whose only inline-data part sits in the
second candidate satisfies the spec success condition, yet the client fails
because it scans only the first candidate. -/
theorem c2_counterexample :
    specSomeCandidateHasInline secondCandidateResp = true ∧
    editImageWithReference (.ok secondCandidateResp) =
      .error ("Gemini API Error: " ++
        ("API returned text instead of an image: \"" ++
          ("here it is").take 100 ++ "...\"")) := by
  exact ⟨by decide, rfl⟩

/-- The invalid-format error is produced exactly when the comma split does
not yield exactly two parts. -/
theorem parseDataUrl_invalid_iff (url : String) :
    parseDataUrl url = .error "Invalid image data URL format." ↔
      (splitComma url).length ≠ 2 := by
  unfold parseDataUrl
  cases h : splitComma url with
  | nil => simp
  | cons a t =>
    cases t with
    | nil => simp
    | cons b t2 =>
      cases t2 with
      | nil =>
        cases hm : mimeTypeMatch a with
        | none => simp [hm]
        | some mm =>
          by_cases he : mm = ""
          · simp [hm, he]
          · simp [hm, he]
      | cons c t3 => simp

/-- C3 (amended): generate fails with the invalid-format error and makes no
client call exactly when splitting the stored data URL on EVERY comma does
not yield exactly two parts, that is, when the URL does not contain exactly
one comma. -/
theorem c3_split_behavior (s : AppState) (ref : ReferenceImage)
    (o : CallOutcome) (href : s.referenceImage = some ref) :
    (splitComma ref.previewUrl).length ≠ 2 ↔
      ((generateFinalState s o).error = some "Invalid image data URL format." ∧
        generateClientArgs s o = none) := by
  constructor
  · intro h
    have hpd := (parseDataUrl_invalid_iff ref.previewUrl).mpr h
    constructor
    · simp [generateFinalState, handleGenerateClick, href, hpd, finalSnapshot]
    · simp [generateClientArgs, handleGenerateClick, href, hpd]
  · rintro ⟨herr, hargs⟩
    intro hlen
    cases hpd : parseDataUrl ref.previewUrl with
    | error msg =>
      have hmsg : msg = "Invalid image data URL format." := by
        have h5 := herr
        simp [generateFinalState, handleGenerateClick, href, hpd,
          finalSnapshot] at h5
        exact h5
      rw [hmsg] at hpd
      exact (parseDataUrl_invalid_iff ref.previewUrl).mp hpd hlen
    | ok pr =>
      obtain ⟨m, d⟩ := pr
      cases ho : editImageWithReference o with
      | ok r =>
        simp [generateClientArgs, handleGenerateClick, href, hpd, ho] at hargs
      | error msg =>
        simp [generateClientArgs, handleGenerateClick, href, hpd, ho] at hargs

/-- Witness for C3 (amended) at a concrete state with a well-formed URL. -/
theorem c3_witness :
    (splitComma witnessRef.previewUrl).length ≠ 2 ↔
      ((generateFinalState witnessState (CallOutcome.errObj "boom")).error =
          some "Invalid image data URL format." ∧
        generateClientArgs witnessState (CallOutcome.errObj "boom") = none) :=
  c3_split_behavior witnessState witnessRef (CallOutcome.errObj "boom") rfl

/-- C3 (counterexample): "data:image/png;base64,AA,BB" splits on its FIRST
comma into exactly two parts, so the claim predicts no invalid-format
failure, yet generate fails with that error and never calls the client. -/
theorem c3_counterexample :
    (specSplitOnFirstComma "data:image/png;base64,AA,BB").length = 2 ∧
    (generateFinalState twoCommaState (CallOutcome.errObj "unreached")).error =
      some "Invalid image data URL format." ∧
    generateClientArgs twoCommaState (CallOutcome.errObj "unreached") = none := by
  exact ⟨by decide, by decide, by decide⟩

/-- Every event preserves the coexistence invariant: the generation flow
leaves error and result mutually exclusive, and the only errors set without
clearing the result are the selection-path and missing-image errors. -/
theorem step_coexistInv (s : AppState) (op : Op) (h : coexistInv s) :
    coexistInv (step s op) := by
  cases op with
  | selectImage file read =>
    cases file with
    | none => exact h
    | some f =>
      by_cases hs : f.size > 4 * 1024 * 1024
      · simp [step, handleImageChange, hs, coexistInv, selectionOrGuardError]
      · cases read with
        | success u => simp [step, handleImageChange, hs, coexistInv]
        | failure =>
          simp [step, handleImageChange, hs, coexistInv, selectionOrGuardError]
  | clearImage => exact h
  | editPrompt p => exact h
  | generate o =>
    cases href : s.referenceImage with
    | none =>
      simp [step, generateFinalState, handleGenerateClick, href, finalSnapshot,
        coexistInv, selectionOrGuardError]
    | some ref =>
      cases hpd : parseDataUrl ref.previewUrl with
      | error msg =>
        simp [step, generateFinalState, handleGenerateClick, href, hpd,
          finalSnapshot, coexistInv]
      | ok pr =>
        obtain ⟨m, d⟩ := pr
        cases ho : editImageWithReference o with
        | ok r =>
          simp [step, generateFinalState, handleGenerateClick, href, hpd, ho,
            finalSnapshot, coexistInv]
        | error msg =>
          simp [step, generateFinalState, handleGenerateClick, href, hpd, ho,
            finalSnapshot, coexistInv]

/-- The coexistence invariant holds along any event sequence. -/
theorem run_coexistInv (ops : List Op) (s : AppState) (h : coexistInv s) :
    coexistInv (run s ops) := by
  induction ops generalizing s with
  | nil => exact h
  | cons op rest ih => exact ih (step s op) (step_coexistInv s op h)

/-- C1 (counterexample): after a successful generation, clearing the image
and then selecting an oversized file leaves the error and the generated
result simultaneously non-empty in a state reachable from the initial
state. -/
theorem c1_counterexample :
    (run initialState c1ops).error =
      some "File is too large. Please upload an image under 4MB." ∧
    (run initialState c1ops).generatedImage =
      some "data:image/jpeg;base64,QUFB" := by
  exact ⟨by decide, by decide⟩

/-- C1 (amended): in every reachable state, the error and the generated
result are simultaneously non-empty only when the error is one of the
image-selection errors (file too large, read failure) or the
missing-reference-image guard error; the generation flow itself never
leaves both set. -/
theorem c1_coexist_only_selection_errors (ops : List Op)
    (he : (run initialState ops).error ≠ none)
    (hg : (run initialState ops).generatedImage ≠ none) :
    selectionOrGuardError (run initialState ops) := by
  rcases run_coexistInv ops initialState (Or.inl rfl) with h | h | h
  · exact absurd h he
  · exact absurd h hg
  · exact h

/-- Witness for C1 (amended) at the counterexample event sequence. -/
theorem c1_witness :
    (run initialState c1ops).error ≠ none ∧
    (run initialState c1ops).generatedImage ≠ none ∧
    selectionOrGuardError (run initialState c1ops) :=
  ⟨by decide, by decide,
    c1_coexist_only_selection_errors c1ops (by decide) (by decide)⟩

end Mary
